import Mathlib

/-!
Verification of the MySQL protocol-log parser of the deepflow agent
(`src/agent/src/flow_generator/protocol_logs/sql/mysql.rs` and
`src/agent/src/common/l7_protocol_log.rs`).

Shallow embedding conventions:
* A Rust byte slice `&[u8]` is a `List Nat` whose elements are byte values.
* Rust `String`s produced by `String::from_utf8_lossy` are kept as their raw
  byte sequences (`List Nat`).  For the two places where the code inspects the
  decoded string (`is_ascii` and the version-regex match) the byte-level
  predicates used here coincide with the string-level ones, because every
  character those predicates accept is a single ASCII byte and every byte
  above 0x7f decodes (lossily or not) to a non-ASCII character.
* `&mut self` methods become functions `State → Input → State × Except Error α`:
  the returned state carries the mutations performed before an early `return`.
* A Rust slice operation that can go out of bounds (`&payload[i..]` with
  `i > payload.len()`) is modelled explicitly; if it fires it produces the
  distinguished `Error.Panic` outcome instead of a value.
* Machine integers are `Nat` (with explicit masking where the code masks);
  the header offset, a Rust `isize`, is `Int`.
-/

namespace FlowGen

/-- L4 protocol of a packet (`IpProtocol` in the source); only the variants
the MySQL parser distinguishes are relevant, `Other` stands for the rest. -/
inductive IpProtocol where
  | Tcp
  | Udp
  | Other
deriving DecidableEq, Repr

/-- Direction of a captured packet (`PacketDirection` in the source). -/
inductive PacketDirection where
  | ClientToServer
  | ServerToClient
deriving DecidableEq, Repr

/-- L7 protocol tag held by a parser (`L7Protocol` in the source).  The real
enum has one variant per supported protocol; the MySQL code only ever stores
`Unknown` or `Mysql` in its own state and compares against `Unknown`, so one
further representative variant (`Http1`) is kept to keep the type honest. -/
inductive L7Protocol where
  | Unknown
  | Http1
  | Mysql
deriving DecidableEq, Repr

/-- Modelled from the spec: the protocol discriminants of section 3
(`u8::from(L7Protocol)` lives in a crate that is not under `src/`):
HTTP/1 = 20, MySQL = 60, `Unknown` = 0. -/
def l7_protocol_u8 : L7Protocol → Nat
  | .Unknown => 0
  | .Http1 => 20
  | .Mysql => 60

/-- Message classification produced by `MysqlHeader::check`
(`LogMessageType` in the source). -/
inductive LogMessageType where
  | Request
  | Response
  | Session
  | Other
deriving DecidableEq, Repr

/-- Response status classification (`L7ResponseStatus` in the source). -/
inductive L7ResponseStatus where
  | Ok
  | ClientError
  | ServerError
  | Timeout
deriving DecidableEq, Repr

/-- Error outcomes of the parser.  `MysqlLogParseFailed` and
`InvalidIpProtocol` are the `flow_generator::error::Error` variants the MySQL
code returns (the spec calls the latter `InvalidL4Protocol`).  `Panic` is not
a Rust `Err`: it marks an out-of-bounds slice operation, i.e. a crash. -/
inductive Error where
  | MysqlLogParseFailed
  | InvalidIpProtocol
  | Panic
deriving DecidableEq, Repr

/-- Decidable equality for `Except`, used to evaluate parser outcomes on
concrete inputs. -/
instance {ε α : Type} [DecidableEq ε] [DecidableEq α] : DecidableEq (Except ε α)
  | .error e, .error f =>
    if h : e = f then .isTrue (by rw [h]) else .isFalse (by intro hc; cases hc; exact h rfl)
  | .error _, .ok _ => .isFalse (by intro hc; cases hc)
  | .ok _, .error _ => .isFalse (by intro hc; cases hc)
  | .ok x, .ok y =>
    if h : x = y then .isTrue (by rw [h]) else .isFalse (by intro hc; cases hc; exact h rfl)

/- ---------------------------------------------------------------------
Constants.  The source imports them from `consts::*`, a module that is not
under `src/`; their values are modelled from the spec (sections 4.4 and 8).
--------------------------------------------------------------------- -/

/-- Modelled from the spec: a MySQL frame header is 4 bytes (3 bytes of
little-endian body length, then one sequence-number byte). -/
def HEADER_LEN : Nat := 4

/-- Modelled from the spec: the sequence number is the 4th header byte. -/
def NUMBER_OFFSET : Nat := 3

/-- Modelled from the spec: protocol version is 1 byte at offset 0 of the
greeting body. -/
def PROTOCOL_VERSION_OFFSET : Nat := 0

/-- Modelled from the spec: protocol version field length. -/
def PROTOCOL_VERSION_LEN : Nat := 1

/-- Modelled from the spec: the greeting protocol version byte must be 10. -/
def PROTOCOL_VERSION : Nat := 10

/-- Modelled from the spec: server version string starts at offset 1. -/
def SERVER_VERSION_OFFSET : Nat := 1

/-- Modelled from the spec: the server version string is NUL-terminated. -/
def SERVER_VERSION_EOF : Nat := 0

/-- Modelled from the spec: the thread id is the 4-byte little-endian integer
immediately after the NUL; the source computes its offset as
`THREAD_ID_OFFSET_B + nul_position + 1`, which places it right after the NUL
when this base is `SERVER_VERSION_OFFSET` (the spec's concrete greeting
example pins exactly that offset). -/
def THREAD_ID_OFFSET_B : Nat := 1

/-- Modelled from the spec: thread id field length. -/
def THREAD_ID_LEN : Nat := 4

/-- Modelled from the spec: request command byte offset and length. -/
def COMMAND_OFFSET : Nat := 0

/-- Modelled from the spec: request command length. -/
def COMMAND_LEN : Nat := 1

/-- Modelled from the spec: COM_QUIT = 0x01. -/
def MYSQL_COMMAND_QUIT : Nat := 1

/-- Modelled from the spec: COM_INIT_DB (use database) = 0x02. -/
def MYSQL_COMMAND_USE_DATABASE : Nat := 2

/-- Modelled from the spec: COM_QUERY = 0x03. -/
def MYSQL_COMMAND_QUERY : Nat := 3

/-- Modelled from the spec: COM_FIELD_LIST (show fields) = 0x04. -/
def MYSQL_COMMAND_SHOW_FIELD : Nat := 4

/-- Modelled from the spec: response code byte offset and length. -/
def RESPONSE_CODE_OFFSET : Nat := 0

/-- Modelled from the spec: response code length. -/
def RESPONSE_CODE_LEN : Nat := 1

/-- Modelled from the spec: OK response marker 0x00. -/
def MYSQL_RESPONSE_CODE_OK : Nat := 0

/-- Modelled from the spec: ERR response marker 0xff. -/
def MYSQL_RESPONSE_CODE_ERR : Nat := 0xff

/-- Modelled from the spec: EOF response marker 0xfe. -/
def MYSQL_RESPONSE_CODE_EOF : Nat := 0xfe

/-- Modelled from the spec: error code is 2 bytes LE at offset 1. -/
def ERROR_CODE_OFFSET : Nat := 1

/-- Modelled from the spec: error code length. -/
def ERROR_CODE_LEN : Nat := 2

/-- Modelled from the spec: the SQL-state block `#XXXXX` starts at offset 3. -/
def SQL_STATE_OFFSET : Nat := 3

/-- Modelled from the spec: the SQL-state block is 6 bytes long. -/
def SQL_STATE_LEN : Nat := 6

/-- Modelled from the spec: the SQL-state marker byte is the character 0x23. -/
def SQL_STATE_MARKER : Nat := 0x23

/-- Modelled from the spec: affected rows start at offset 1 of an OK body. -/
def AFFECTED_ROWS_OFFSET : Nat := 1

/-- Modelled from the spec: a length-encoded integer's flag byte is 1 byte. -/
def INT_BASE_LEN : Nat := 1

/-- Modelled from the spec: flag byte 0xfc introduces a 2-byte integer. -/
def INT_FLAGS_2 : Nat := 0xfc

/-- Modelled from the spec: flag byte 0xfd introduces a 3-byte integer. -/
def INT_FLAGS_3 : Nat := 0xfd

/-- Modelled from the spec: flag byte 0xfe introduces an 8-byte integer. -/
def INT_FLAGS_8 : Nat := 0xfe

/- ---------------------------------------------------------------------
Wire readers.  The source imports them from `utils::bytes`, which is not
under `src/`.
--------------------------------------------------------------------- -/

/-- Modelled from the spec: section 2 describes the wire readers as "small
helpers to pull little-endian integers ... from a byte slice without
panicking on short input"; missing bytes therefore contribute zero. -/
def read_u16_le (bs : List Nat) : Nat :=
  bs.getD 0 0 + 2 ^ 8 * bs.getD 1 0

/-- Modelled from the spec: 4-byte little-endian reader, total on short
input (see `read_u16_le`). -/
def read_u32_le (bs : List Nat) : Nat :=
  bs.getD 0 0 + 2 ^ 8 * bs.getD 1 0 + 2 ^ 16 * bs.getD 2 0 + 2 ^ 24 * bs.getD 3 0

/-- Modelled from the spec: 8-byte little-endian reader, total on short
input (see `read_u16_le`). -/
def read_u64_le (bs : List Nat) : Nat :=
  bs.getD 0 0 + 2 ^ 8 * bs.getD 1 0 + 2 ^ 16 * bs.getD 2 0 + 2 ^ 24 * bs.getD 3 0 +
    2 ^ 32 * bs.getD 4 0 + 2 ^ 40 * bs.getD 5 0 + 2 ^ 48 * bs.getD 6 0 + 2 ^ 56 * bs.getD 7 0

/- ---------------------------------------------------------------------
Data model (from the source).
--------------------------------------------------------------------- -/

/-- `MysqlInfo` of the source; strings are kept as byte lists. -/
structure MysqlInfo where
  protocol_version : Nat
  server_version : List Nat
  server_thread_id : Nat
  command : Nat
  context : List Nat
  response_code : Nat
  error_code : Nat
  affected_rows : Nat
  error_message : List Nat
deriving DecidableEq, Repr

/-- `MysqlInfo::default()`: numeric fields zero, strings empty. -/
def MysqlInfo.default : MysqlInfo :=
  { protocol_version := 0, server_version := [], server_thread_id := 0,
    command := 0, context := [], response_code := 0, error_code := 0,
    affected_rows := 0, error_message := [] }

/-- `MysqlInfo::merge`: the response-side fields of `other` overwrite those
of `self`; all other fields keep `self`'s values. -/
def MysqlInfo.merge (s other : MysqlInfo) : MysqlInfo :=
  { s with
    response_code := other.response_code,
    affected_rows := other.affected_rows,
    error_code := other.error_code,
    error_message := other.error_message }

/-- `mysql_string` of the source: MySQL 8.0.26 prefixes some strings with
bytes 0x00 0x01, which are stripped; `String::from_utf8_lossy` itself is kept
as the raw bytes (see the module comment). -/
def mysql_string (payload : List Nat) : List Nat :=
  if 2 < payload.length ∧ payload.getD 0 0 = 0 ∧ payload.getD 1 0 = 1 then
    payload.drop 2
  else
    payload

/-- `String::is_ascii` on the lossy decode of a byte sequence: true exactly
when every byte is below 0x80 (ASCII bytes decode to themselves; any byte
0x80 or above yields either a multi-byte character or U+FFFD, both
non-ASCII). -/
def is_ascii (bs : List Nat) : Bool :=
  bs.all (fun b => decide (b < 0x80))

/-- Modelled from the spec: the anchored regex match of a version-string
beginning, at least three characters drawn from the digits and the dot.
Since every accepted character is one ASCII byte and the match is anchored
at the start, `Regex::is_match` on the lossily decoded string holds exactly
when the byte sequence has at least 3 bytes and its first 3 bytes are each a
digit or 0x2e. -/
def regex_version_is_match (bs : List Nat) : Bool :=
  decide (3 ≤ bs.length) &&
    (bs.take 3).all (fun b => b == 0x2e || (decide (0x30 ≤ b) && decide (b ≤ 0x39)))

/-- `MysqlHeader` of the source: 24-bit body length and sequence number. -/
structure MysqlHeader where
  length : Nat
  number : Nat
deriving DecidableEq, Repr

/-- `MysqlHeader::default()`. -/
def MysqlHeader.default : MysqlHeader := { length := 0, number := 0 }

/-- `MysqlHeader::decode`: walks concatenated frames until one starts with an
OK/ERR/EOF body byte or has sequence number 0, returning the updated header
and the body offset of that frame (`-1` when the payload is shorter than 5
bytes, `0` when the walk runs past the end).  The recursion is on the strict
suffix `payload.drop offset` with `offset ≥ 4`. -/
def MysqlHeader.decode (h : MysqlHeader) (payload : List Nat) : MysqlHeader × Int :=
  if payload.length < 5 then
    (h, -1)
  else
    if payload.getD (HEADER_LEN + RESPONSE_CODE_OFFSET) 0 = MYSQL_RESPONSE_CODE_OK ∨
        payload.getD (HEADER_LEN + RESPONSE_CODE_OFFSET) 0 = MYSQL_RESPONSE_CODE_ERR ∨
        payload.getD (HEADER_LEN + RESPONSE_CODE_OFFSET) 0 = MYSQL_RESPONSE_CODE_EOF ∨
        payload.getD NUMBER_OFFSET 0 = 0 then
      ({ length := read_u32_le payload &&& 0xffffff, number := payload.getD NUMBER_OFFSET 0 },
        (HEADER_LEN : Int))
    else
      if _hoff : payload.length ≤ (read_u32_le payload &&& 0xffffff) + HEADER_LEN then
        (h, 0)
      else
        (  (MysqlHeader.decode h (payload.drop ((read_u32_le payload &&& 0xffffff) + HEADER_LEN))).1,
          (((read_u32_le payload &&& 0xffffff) + HEADER_LEN : Nat) : Int) +
            (MysqlHeader.decode h (payload.drop ((read_u32_le payload &&& 0xffffff) + HEADER_LEN))).2)
termination_by payload.length
decreasing_by
  simp only [List.length_drop, HEADER_LEN]
  omega

/-- Fuel-indexed copy of `MysqlHeader.decode`, structurally recursive on the
fuel; `none` means the fuel ran out before the walk finished. -/
def MysqlHeader.decodeFuel : Nat → MysqlHeader → List Nat → Option (MysqlHeader × Int)
  | 0, _, _ => none
  | fuel + 1, h, payload =>
    if payload.length < 5 then
      some (h, -1)
    else
      if payload.getD (HEADER_LEN + RESPONSE_CODE_OFFSET) 0 = MYSQL_RESPONSE_CODE_OK ∨
          payload.getD (HEADER_LEN + RESPONSE_CODE_OFFSET) 0 = MYSQL_RESPONSE_CODE_ERR ∨
          payload.getD (HEADER_LEN + RESPONSE_CODE_OFFSET) 0 = MYSQL_RESPONSE_CODE_EOF ∨
          payload.getD NUMBER_OFFSET 0 = 0 then
        some ({ length := read_u32_le payload &&& 0xffffff, number := payload.getD NUMBER_OFFSET 0 },
          (HEADER_LEN : Int))
      else
        if payload.length ≤ (read_u32_le payload &&& 0xffffff) + HEADER_LEN then
          some (h, 0)
        else
          match MysqlHeader.decodeFuel fuel h
              (payload.drop ((read_u32_le payload &&& 0xffffff) + HEADER_LEN)) with
          | none => none
          | some r =>
            some (r.1, (((read_u32_le payload &&& 0xffffff) + HEADER_LEN : Nat) : Int) + r.2)

/-- Any fuel exceeding the payload length is enough for `decodeFuel` to agree
with `decode`: each recursive step strips at least the 4-byte header. -/
theorem decodeFuel_complete (fuel : Nat) (h : MysqlHeader) (payload : List Nat)
    (hfuel : payload.length < fuel) :
    MysqlHeader.decodeFuel fuel h payload = some (MysqlHeader.decode h payload) := by
  induction fuel generalizing payload with
  | zero => omega
  | succ n ih =>
    unfold MysqlHeader.decodeFuel MysqlHeader.decode
    split
    next h5 => rfl
    next h5 =>
      split
      next hstop => rfl
      next hstop =>
        split
        next hoff => rfl
        next hoff =>
          rw [ih _ (by
            simp only [HEADER_LEN] at hoff
            simp only [List.length_drop, HEADER_LEN]
            omega)]

/-- `MysqlHeader::check`: classifies a decoded frame as greeting (`Other`),
`Response` or `Request` from the direction, the sequence number and the
current protocol pin, rejecting zero-length frames, out-of-range offsets and
non-zero sequence numbers on unidentified flows. -/
def MysqlHeader.check (h : MysqlHeader) (direction : PacketDirection) (offset : Nat)
    (payload : List Nat) (l7_proto : L7Protocol) : Option LogMessageType :=
  if payload.length ≤ offset ∨ h.length = 0 then
    none
  else if h.number ≠ 0 ∧ l7_proto = L7Protocol.Unknown then
    none
  else
    match direction with
    | .ServerToClient =>
      if h.number = 0 then
        if (payload.drop offset).length < PROTOCOL_VERSION_LEN then
          none
        else
          match ((payload.drop offset).drop SERVER_VERSION_OFFSET).findIdx?
              (fun x => x == SERVER_VERSION_EOF) with
          | none => none
          | some index =>
            if index ≠ 0 ∧ (payload.drop offset).getD PROTOCOL_VERSION_OFFSET 0 = PROTOCOL_VERSION
            then some .Other
            else none
      else some .Response
    | .ClientToServer =>
      if h.number = 0 then some .Request else none

/-- `MysqlLog` of the source: the parser's state. -/
structure MysqlLog where
  info : MysqlInfo
  l7_proto : L7Protocol
  msg_type : LogMessageType
  status : L7ResponseStatus
deriving DecidableEq, Repr

/-- `MysqlLog::default()`: empty info, protocol not yet identified. -/
def MysqlLog.default : MysqlLog :=
  { info := MysqlInfo.default, l7_proto := .Unknown, msg_type := .Other, status := .Ok }

/-- `MysqlLog::reset_logs`. -/
def MysqlLog.reset_logs (s : MysqlLog) : MysqlLog :=
  { s with info := MysqlInfo.default, status := .Ok }

/-- `MysqlLog::greeting`.  The returned state carries the mutations performed
before an early error return, mirroring `&mut self`. -/
def MysqlLog.greeting (s : MysqlLog) (payload : List Nat) : MysqlLog × Except Error Unit :=
  if payload.length < PROTOCOL_VERSION_LEN then
    (s, .error .MysqlLogParseFailed)
  else
    let s1 : MysqlLog :=
      { s with info := { s.info with protocol_version := payload.getD PROTOCOL_VERSION_OFFSET 0 } }
    if ((payload.drop SERVER_VERSION_OFFSET).findIdx? (fun x => x == SERVER_VERSION_EOF)).getD 0
        = 0 then
      (s1, .error .MysqlLogParseFailed)
    else
      let pos := ((payload.drop SERVER_VERSION_OFFSET).findIdx?
        (fun x => x == SERVER_VERSION_EOF)).getD 0
      let s2 : MysqlLog :=
        { s1 with info := { s1.info with
            server_version := (payload.drop SERVER_VERSION_OFFSET).take pos } }
      if payload.length - PROTOCOL_VERSION_LEN - pos < THREAD_ID_LEN then
        (s2, .error .MysqlLogParseFailed)
      else
        ({ s2 with
            info := { s2.info with
              server_thread_id := read_u32_le (payload.drop (THREAD_ID_OFFSET_B + pos + 1)) },
            l7_proto := .Mysql },
          .ok ())

/-- `MysqlLog::request` (including `request_string`/`mysql_string`).  On an
unsupported command the command byte has already been stored when the error
is returned, as in the source. -/
def MysqlLog.request (s : MysqlLog) (payload : List Nat) : MysqlLog × Except Error Unit :=
  if payload.length < COMMAND_LEN then
    (s, .error .MysqlLogParseFailed)
  else
    let s1 : MysqlLog :=
      { s with info := { s.info with command := payload.getD COMMAND_OFFSET 0 } }
    if s1.info.command = MYSQL_COMMAND_QUIT ∨ s1.info.command = MYSQL_COMMAND_SHOW_FIELD then
      ({ s1 with l7_proto := .Mysql }, .ok ())
    else if s1.info.command = MYSQL_COMMAND_USE_DATABASE ∨ s1.info.command = MYSQL_COMMAND_QUERY
    then
      ({ s1 with
          info := { s1.info with
            context := mysql_string (payload.drop (COMMAND_OFFSET + COMMAND_LEN)) },
          l7_proto := .Mysql },
        .ok ())
    else (s1, .error .MysqlLogParseFailed)

/-- `MysqlLog::set_status`. -/
def MysqlLog.set_status (s : MysqlLog) (status_code : Nat) : MysqlLog :=
  if status_code ≠ 0 then
    if 2000 ≤ status_code ∧ status_code ≤ 2999 then
      { s with status := .ClientError }
    else
      { s with status := .ServerError }
  else
    { s with status := .Ok }

/-- `MysqlLog::decode_compress_int`: the length-encoded integer decoder.
Note the guards require one byte more than the encoded width
(`remain > INT_BASE_LEN + n`); otherwise the flag byte itself is returned. -/
def MysqlLog.decode_compress_int (payload : List Nat) : Nat :=
  if payload.length = 0 then
    0
  else
    if payload.getD 0 0 = INT_FLAGS_2 ∧ INT_BASE_LEN + 2 < payload.length then
      read_u16_le (payload.drop INT_BASE_LEN)
    else if payload.getD 0 0 = INT_FLAGS_3 ∧ INT_BASE_LEN + 3 < payload.length then
      read_u16_le (payload.drop INT_BASE_LEN) ||| (payload.getD (INT_BASE_LEN + 2) 0 <<< 16)
    else if payload.getD 0 0 = INT_FLAGS_8 ∧ INT_BASE_LEN + 8 < payload.length then
      read_u64_le (payload.drop INT_BASE_LEN)
    else
      payload.getD 0 0

/-- `MysqlLog::response`.  The slice `&payload[error_message_offset..]` in the
source panics when the offset exceeds the payload length; that outcome is the
explicit `Error.Panic`.  The source writes `self.info.error_code` inside the
guard and reads it back in `set_status`; here the value is computed once as a
scalar and written in a single state update — the resulting state, error
returns included, is identical. -/
def MysqlLog.response (s : MysqlLog) (payload : List Nat) : MysqlLog × Except Error Unit :=
  if payload.length < RESPONSE_CODE_LEN then
    (s, .error .MysqlLogParseFailed)
  else
    if payload.getD RESPONSE_CODE_OFFSET 0 = MYSQL_RESPONSE_CODE_ERR then
      let error_code : Nat :=
        if ERROR_CODE_LEN < payload.length - RESPONSE_CODE_LEN then
          read_u16_le (payload.drop ERROR_CODE_OFFSET)
        else s.info.error_code
      let remain : Nat :=
        if ERROR_CODE_LEN < payload.length - RESPONSE_CODE_LEN then
          payload.length - RESPONSE_CODE_LEN - ERROR_CODE_LEN
        else payload.length - RESPONSE_CODE_LEN
      let s2 : MysqlLog :=
        { s with info :=
            { s.info with
              response_code := payload.getD RESPONSE_CODE_OFFSET 0
              error_code := error_code } }
      let s3 : MysqlLog := s2.set_status error_code
      let error_message_offset : Nat :=
        if SQL_STATE_LEN < remain ∧ payload.getD SQL_STATE_OFFSET 0 = SQL_STATE_MARKER then
          SQL_STATE_OFFSET + SQL_STATE_LEN
        else SQL_STATE_OFFSET
      if payload.length < error_message_offset then
        (s3, .error .Panic)
      else
        ({ s3 with info := { s3.info with error_message := payload.drop error_message_offset } },
          .ok ())
    else if payload.getD RESPONSE_CODE_OFFSET 0 = MYSQL_RESPONSE_CODE_OK then
      ({ s with
          status := .Ok,
          info :=
            { s.info with
              response_code := payload.getD RESPONSE_CODE_OFFSET 0
              affected_rows :=
                MysqlLog.decode_compress_int (payload.drop AFFECTED_ROWS_OFFSET) } },
        .ok ())
    else
      ({ s with info := { s.info with response_code := payload.getD RESPONSE_CODE_OFFSET 0 } },
        .ok ())

/-- The `AppProtoHead` record returned by a successful parse. -/
structure AppProtoHead where
  proto : L7Protocol
  msg_type : LogMessageType
  status : L7ResponseStatus
  code : Nat
  rrt : Nat
  version : Nat
deriving DecidableEq, Repr

/-- `<MysqlLog as L7LogParse>::parse`: the entry point.  Rejects non-TCP
transport before touching any state, resets the per-message fields, decodes
the frame header, classifies the message and dispatches to the body parser.
On a helper error the partially mutated state is returned with the error,
as `?` does over `&mut self`. -/
def MysqlLog.parse (s : MysqlLog) (payload : List Nat) (proto : IpProtocol)
    (direction : PacketDirection) : MysqlLog × Except Error AppProtoHead :=
  if proto ≠ IpProtocol.Tcp then
    (s, .error .InvalidIpProtocol)
  else
    let s0 := s.reset_logs
    let hd := MysqlHeader.decode MysqlHeader.default payload
    if hd.2 < 0 then
      (s0, .error .MysqlLogParseFailed)
    else
      match hd.1.check direction hd.2.toNat payload s0.l7_proto with
      | none => (s0, .error .MysqlLogParseFailed)
      | some msg_type =>
        let step : MysqlLog × Except Error Unit :=
          match msg_type with
          | .Request => s0.request (payload.drop hd.2.toNat)
          | .Response => s0.response (payload.drop hd.2.toNat)
          | .Other => s0.greeting (payload.drop hd.2.toNat)
          | .Session => (s0, .error .MysqlLogParseFailed)
        match step.2 with
        | .error e => (step.1, .error e)
        | .ok _ =>
          ({ step.1 with msg_type := msg_type },
            .ok { proto := .Mysql, msg_type := msg_type, status := step.1.status,
                  code := step.1.info.error_code, rrt := 0, version := 0 })

/-- The packet fields `mysql_check_protocol` consults: the L4 protocol from
the lookup key and `get_l4_payload()`. -/
structure MetaPacket where
  proto : IpProtocol
  l4_payload : Option (List Nat)
deriving DecidableEq, Repr

/-- `L7ProtocolParser::set_bitmap_skip_parse`: clears the parser's own bit,
`bitmap &= not (1 << protocol_number)` over `u128`. -/
def set_bitmap_skip_parse (proto : L7Protocol) (bitmap : Nat) : Nat :=
  bitmap &&& (2 ^ 128 - 1 - 2 ^ l7_protocol_u8 proto)

/-- `mysql_check_protocol`: the identification heuristic.  Returns the
updated skip-bitmap (the source mutates it through `&mut u128`) and the
acceptance verdict. -/
def mysql_check_protocol (bitmap : Nat) (packet : MetaPacket) : Nat × Bool :=
  if packet.proto ≠ IpProtocol.Tcp then
    (bitmap &&& (2 ^ 128 - 1 - 2 ^ l7_protocol_u8 L7Protocol.Mysql), false)
  else
    match packet.l4_payload with
    | none => (bitmap, false)
    | some payload =>
      let hd := MysqlHeader.decode MysqlHeader.default payload
      if hd.2 < 0 then
        (bitmap &&& (2 ^ 128 - 1 - 2 ^ l7_protocol_u8 L7Protocol.Mysql), false)
      else
        if hd.1.number ≠ 0 ∨ payload.length < hd.2.toNat + hd.1.length then
          (bitmap, false)
        else
          if payload.getD hd.2.toNat 0 = MYSQL_COMMAND_QUERY then
            (bitmap, is_ascii (mysql_string (payload.drop (hd.2.toNat + 1))))
          else if 8 ≤ payload.getD hd.2.toNat 0 ∧ payload.getD hd.2.toNat 0 ≤ 20 then
            (bitmap,
              regex_version_is_match (mysql_string
                ((payload.take (min payload.length (hd.2.toNat + 8))).drop (hd.2.toNat + 1))))
          else
            (bitmap, false)

/-- The acceptance condition of `mysql_check_protocol` as the spec states it:
the decoded frame header must have sequence number 0 and
`offset + body_length ≤ payload.len()`, and the body byte at the offset is
either QUERY (0x03) with an all-ASCII remainder, or lies in 0x08..0x14 with
the string decoded from the up-to-8-byte window after it matching the
anchored version regex; anything else — including non-TCP packets, absent
payloads and undecodable headers — is rejected. -/
def mysql_check_protocol_accepts_spec (packet : MetaPacket) : Prop :=
  packet.proto = IpProtocol.Tcp ∧
  match packet.l4_payload with
  | none => False
  | some payload =>
    0 ≤ (MysqlHeader.decode MysqlHeader.default payload).2 ∧
    (MysqlHeader.decode MysqlHeader.default payload).1.number = 0 ∧
    (MysqlHeader.decode MysqlHeader.default payload).2.toNat +
        (MysqlHeader.decode MysqlHeader.default payload).1.length ≤ payload.length ∧
    ( (payload.getD (MysqlHeader.decode MysqlHeader.default payload).2.toNat 0 = 3 ∧
        is_ascii (mysql_string
          (payload.drop ((MysqlHeader.decode MysqlHeader.default payload).2.toNat + 1))) = true) ∨
      (8 ≤ payload.getD (MysqlHeader.decode MysqlHeader.default payload).2.toNat 0 ∧
        payload.getD (MysqlHeader.decode MysqlHeader.default payload).2.toNat 0 ≤ 0x14 ∧
        regex_version_is_match (mysql_string
          ((payload.take (min payload.length
              ((MysqlHeader.decode MysqlHeader.default payload).2.toNat + 8))).drop
            ((MysqlHeader.decode MysqlHeader.default payload).2.toNat + 1))) = true) )

/- ---------------------------------------------------------------------
Helper lemmas.
--------------------------------------------------------------------- -/

/-- Evaluation of the header walk on the 5-byte frame `01 00 00 01 ff`
(body length 1, sequence number 1, ERR body): body offset 4. -/
theorem decode_err_frame :
    MysqlHeader.decode MysqlHeader.default [1, 0, 0, 1, 0xff] =
      ({ length := 1, number := 1 }, 4) := by
  have h1 := decodeFuel_complete 6 MysqlHeader.default [1, 0, 0, 1, 0xff] (by decide)
  have h2 : MysqlHeader.decodeFuel 6 MysqlHeader.default [1, 0, 0, 1, 0xff] =
      some ({ length := 1, number := 1 }, 4) := by decide
  rw [h1] at h2
  exact Option.some.inj h2

/-- Evaluation of the header walk on the greeting packet of the spec's
scenario 1 (header `0c 00 00 00`, then the greeting body): body offset 4. -/
theorem decode_greeting_frame :
    MysqlHeader.decode MysqlHeader.default
        [12, 0, 0, 0, 10, 53, 46, 55, 46, 50, 56, 0, 11, 0, 0, 0] =
      ({ length := 12, number := 0 }, 4) := by
  have h1 := decodeFuel_complete 17 MysqlHeader.default
    [12, 0, 0, 0, 10, 53, 46, 55, 46, 50, 56, 0, 11, 0, 0, 0] (by decide)
  have h2 : MysqlHeader.decodeFuel 17 MysqlHeader.default
      [12, 0, 0, 0, 10, 53, 46, 55, 46, 50, 56, 0, 11, 0, 0, 0] =
      some ({ length := 12, number := 0 }, 4) := by decide
  rw [h1] at h2
  exact Option.some.inj h2

/-- The skip-bitmap returned by `mysql_check_protocol` is either the input
bitmap or the input with the MySQL bit masked off. -/
theorem mysql_check_protocol_bitmap_cases (bitmap : Nat) (packet : MetaPacket) :
    (mysql_check_protocol bitmap packet).1 = bitmap ∨
      (mysql_check_protocol bitmap packet).1 =
        bitmap &&& (2 ^ 128 - 1 - 2 ^ l7_protocol_u8 L7Protocol.Mysql) := by
  simp only [mysql_check_protocol]
  split
  · exact Or.inr rfl
  · split
    · exact Or.inl rfl
    · split
      · exact Or.inr rfl
      · split
        · exact Or.inl rfl
        · split
          · exact Or.inl rfl
          · split
            · exact Or.inl rfl
            · exact Or.inl rfl

/- ---------------------------------------------------------------------
Claim theorems.
--------------------------------------------------------------------- -/

/-- Claim C8: `MysqlInfo::merge` of a response `s` into a request `r`
overwrites exactly the response-side fields (response_code, error_code,
affected_rows, error_message) with `s`'s values, leaves every other field of
`r` unchanged, and is idempotent: merging `s` again changes nothing. -/
theorem merge_response_fields_idempotent (r s : MysqlInfo) :
    (r.merge s).response_code = s.response_code ∧
    (r.merge s).error_code = s.error_code ∧
    (r.merge s).affected_rows = s.affected_rows ∧
    (r.merge s).error_message = s.error_message ∧
    (r.merge s).protocol_version = r.protocol_version ∧
    (r.merge s).server_version = r.server_version ∧
    (r.merge s).server_thread_id = r.server_thread_id ∧
    (r.merge s).command = r.command ∧
    (r.merge s).context = r.context ∧
    (r.merge s).merge s = r.merge s := by
  simp [MysqlInfo.merge]

/-- Claim C9: for every payload and every L4 protocol other than TCP,
`MysqlLog::parse` returns the `InvalidIpProtocol` error (the spec's
`InvalidL4Protocol`) and returns the parser state unchanged: the guard runs
before any mutation. -/
theorem parse_non_tcp_invalid_l4 (s : MysqlLog) (payload : List Nat)
    (proto : IpProtocol) (direction : PacketDirection) (h : proto ≠ IpProtocol.Tcp) :
    s.parse payload proto direction = (s, .error .InvalidIpProtocol) := by
  simp [MysqlLog.parse, h]

/-- Witness for C9 at a concrete UDP call. -/
theorem parse_non_tcp_invalid_l4_witness :
    IpProtocol.Udp ≠ IpProtocol.Tcp ∧
      MysqlLog.default.parse [0xff] IpProtocol.Udp PacketDirection.ClientToServer =
        (MysqlLog.default, .error .InvalidIpProtocol) :=
  ⟨by decide,
    parse_non_tcp_invalid_l4 MysqlLog.default [0xff] IpProtocol.Udp .ClientToServer (by decide)⟩

/-- Claim C2 counterexample: the claim states that `[0xfc, 0x00, 0x01]`
decodes to 256 and that the truncated `[0xfc]` decodes to 0.  The code
returns the flag byte 0xfc = 252 in both cases: its 2-byte branch fires only
when the payload has strictly more than `INT_BASE_LEN + 2 = 3` bytes, and
the fallback returns the first byte, not 0. -/
theorem decode_compress_int_counterexample :
    MysqlLog.decode_compress_int [0xfc, 0x00, 0x01] = 252 ∧
      MysqlLog.decode_compress_int [0xfc] = 252 := by
  decide

/-- Claim C2 amended: each multi-byte branch of `decode_compress_int` needs
one byte more than the encoded width (4, 5 and 10 bytes in total for the
0xfc, 0xfd and 0xfe flags); with enough bytes it reads the little-endian
value after the flag, and in every other non-empty case — truncated flags
included — the result is the first byte itself; only the empty payload
yields 0.  The spec's boundary examples hold with one extra trailing byte. -/
theorem decode_compress_int_amended :
    MysqlLog.decode_compress_int [0xfc, 0x00, 0x01, 0] = 256 ∧
    MysqlLog.decode_compress_int [0xfd, 0x00, 0x00, 0x01, 0] = 65536 ∧
    MysqlLog.decode_compress_int [0xfe, 0, 0, 0, 0, 0, 0, 0, 1, 0] = 2 ^ 56 ∧
    MysqlLog.decode_compress_int [0x7f] = 127 ∧
    MysqlLog.decode_compress_int [] = 0 ∧
    (∀ (v : Nat) (rest : List Nat), v < 0xfb →
      MysqlLog.decode_compress_int (v :: rest) = v) ∧
    (∀ rest : List Nat, rest.length ≤ 2 →
      MysqlLog.decode_compress_int (0xfc :: rest) = 0xfc) ∧
    (∀ rest : List Nat, rest.length ≤ 3 →
      MysqlLog.decode_compress_int (0xfd :: rest) = 0xfd) ∧
    (∀ rest : List Nat, rest.length ≤ 8 →
      MysqlLog.decode_compress_int (0xfe :: rest) = 0xfe) ∧
    (∀ rest : List Nat, 3 ≤ rest.length →
      MysqlLog.decode_compress_int (0xfc :: rest) = read_u16_le rest) ∧
    (∀ rest : List Nat, 4 ≤ rest.length →
      MysqlLog.decode_compress_int (0xfd :: rest) =
        read_u16_le rest ||| (rest.getD 2 0 <<< 16)) ∧
    (∀ rest : List Nat, 9 ≤ rest.length →
      MysqlLog.decode_compress_int (0xfe :: rest) = read_u64_le rest) := by
  refine ⟨by decide, by decide, by decide, by decide, by decide,
    fun v rest h => ?_, fun rest h => ?_, fun rest h => ?_, fun rest h => ?_,
    fun rest h => ?_, fun rest h => ?_, fun rest h => ?_⟩
  all_goals
    unfold MysqlLog.decode_compress_int
    simp only [INT_FLAGS_2, INT_FLAGS_3, INT_FLAGS_8, INT_BASE_LEN, List.length_cons,
      List.getD_cons_zero, List.drop_succ_cons, List.drop_zero, List.getD_cons_succ]
    split_ifs <;> simp_all <;> try omega

/-- Witness for C2 (amended) at the spec's `[0x7f]` example. -/
theorem decode_compress_int_amended_witness :
    (127 : Nat) < 0xfb ∧ MysqlLog.decode_compress_int [127] = 127 :=
  ⟨by decide, decode_compress_int_amended.2.2.2.2.2.1 127 [] (by decide)⟩

/-- Claim C7: clearing skip-bitmap bits is monotonic: every bit set in the
bitmap produced by `mysql_check_protocol` was already set in the input
bitmap, and `set_bitmap_skip_parse` likewise never sets a bit. -/
theorem skip_bitmap_clear_monotonic :
    (∀ (bitmap : Nat) (packet : MetaPacket) (i : Nat),
      ((mysql_check_protocol bitmap packet).1).testBit i = true → bitmap.testBit i = true) ∧
    (∀ (proto : L7Protocol) (bitmap : Nat) (i : Nat),
      (set_bitmap_skip_parse proto bitmap).testBit i = true → bitmap.testBit i = true) := by
  constructor
  · intro bitmap packet i h
    rcases mysql_check_protocol_bitmap_cases bitmap packet with hc | hc
    · rwa [hc] at h
    · rw [hc, Nat.testBit_land, Bool.and_eq_true] at h
      exact h.1
  · intro proto bitmap i h
    rw [set_bitmap_skip_parse, Nat.testBit_land, Bool.and_eq_true] at h
    exact h.1

/-- Witness for C7: a non-TCP packet clears the MySQL bit of bitmap 3;
bit 0 survives and was indeed set before. -/
theorem skip_bitmap_clear_monotonic_witness :
    ((mysql_check_protocol 3 { proto := .Udp, l4_payload := none }).1).testBit 0 = true ∧
      (3 : Nat).testBit 0 = true := by
  have h1 : ((mysql_check_protocol 3 { proto := .Udp, l4_payload := none }).1).testBit 0 = true := by
    decide
  exact ⟨h1, skip_bitmap_clear_monotonic.1 3 _ 0 h1⟩

/-- Claim C10: `MysqlHeader::decode` terminates on every input payload.
Each self-call runs on the strict suffix `payload.drop offset` with
`offset ≥ HEADER_LEN = 4`, so recursion depth is bounded by the payload
length: fuel `payload.length + 1` always lets the fuel-indexed copy finish
and agree with the function. -/
theorem decode_terminates_with_linear_fuel (h : MysqlHeader) (payload : List Nat) :
    MysqlHeader.decodeFuel (payload.length + 1) h payload =
      some (MysqlHeader.decode h payload) :=
  decodeFuel_complete (payload.length + 1) h payload (Nat.lt_succ_self _)

/-- Claim C1 (code bug): the parsers are not panic-free.  An ERR response
whose body is the single byte `ff` drives `MysqlLog::response` into
`&payload[3..]` on a 1-byte slice — an out-of-bounds panic, not
`ParseFailed`.  It is reachable through `parse`: packet `01 00 00 01 ff`
(body length 1, sequence 1) from server to client on a flow already pinned
to MySQL decodes to an ERR frame, is classified `Response`, and crashes. -/
theorem response_truncated_body_panics :
    (MysqlLog.response MysqlLog.default [0xff]).2 = .error .Panic ∧
      ({ MysqlLog.default with l7_proto := .Mysql }.parse [1, 0, 0, 1, 0xff]
          IpProtocol.Tcp PacketDirection.ServerToClient).2 = .error .Panic := by
  constructor
  · decide
  · unfold MysqlLog.parse
    rw [decode_err_frame]
    decide

/-- Claim C6: for every payload whose decoded header has a non-zero sequence
number, a parser that has not yet identified the flow as MySQL (its
`l7_proto`, which only ever holds `Unknown` or `Mysql`, is not `Mysql`)
rejects in `MysqlHeader::check` and `MysqlLog::parse` fails with
`ParseFailed`. -/
theorem nonzero_seq_unidentified_rejected (s : MysqlLog) (payload : List Nat)
    (direction : PacketDirection) (header : MysqlHeader) (offset : Int)
    (hdec : MysqlHeader.decode MysqlHeader.default payload = (header, offset))
    (hnum : header.number ≠ 0)
    (hmysql : s.l7_proto ≠ .Mysql)
    (hreach : s.l7_proto = .Unknown ∨ s.l7_proto = .Mysql) :
    header.check direction offset.toNat payload s.l7_proto = none ∧
      (s.parse payload IpProtocol.Tcp direction).2 =
        .error .MysqlLogParseFailed := by
  have hunk : s.l7_proto = .Unknown := by
    rcases hreach with h | h
    · exact h
    · exact absurd h hmysql
  have hchk : ∀ off : Nat, header.check direction off payload s.l7_proto = none := by
    intro off
    unfold MysqlHeader.check
    by_cases hg : payload.length ≤ off ∨ header.length = 0
    · simp [hg]
    · simp [hg, hnum, hunk]
  refine ⟨hchk _, ?_⟩
  unfold MysqlLog.parse
  rw [hdec]
  have hl7 : (s.reset_logs).l7_proto = s.l7_proto := rfl
  by_cases hneg : (offset : Int) < 0
  · simp [hneg]
  · simp only [ne_eq, not_true_eq_false, if_false, hneg, ite_false, hl7, hchk]

/-- Witness for C6 on the concrete packet `01 00 00 01 ff` (sequence 1)
against a fresh parser. -/
theorem nonzero_seq_unidentified_rejected_witness :
    MysqlHeader.decode MysqlHeader.default [1, 0, 0, 1, 0xff] =
        ({ length := 1, number := 1 }, 4) ∧
      ({ length := 1, number := 1 } : MysqlHeader).number ≠ 0 ∧
      MysqlLog.default.l7_proto ≠ L7Protocol.Mysql ∧
      (MysqlLog.default.parse [1, 0, 0, 1, 0xff] IpProtocol.Tcp
          PacketDirection.ClientToServer).2 = .error .MysqlLogParseFailed := by
  refine ⟨decode_err_frame, by decide, by decide, ?_⟩
  exact (nonzero_seq_unidentified_rejected MysqlLog.default [1, 0, 0, 1, 0xff]
    PacketDirection.ClientToServer { length := 1, number := 1 } 4 decode_err_frame
    (by decide) (by decide) (Or.inl rfl)).2

/-- Claim C3 counterexample: the greeting body `0a 41 00 01 02 03` has only
3 bytes after the NUL — too short for the 4-byte thread id, so the claim
requires `ParseFailed` — yet `greeting` succeeds: the source's length check
`remain < THREAD_ID_LEN` counts the NUL byte itself as still remaining. -/
theorem greeting_short_thread_id_not_failed :
    (MysqlLog.default.greeting [0x0a, 0x41, 0x00, 1, 2, 3]).2 ≠
      Except.error Error.MysqlLogParseFailed := by
  decide

/-- Claim C3 amended: `greeting` reads protocol_version from byte 0, the
server version up to the first NUL after offset 1 and the 4-byte LE thread
id right after the NUL, pinning the flow to MySQL on success; an empty body,
a missing NUL or a NUL at offset 1 fail, and the final length check demands
only `payload.len - 1 - nul_pos ≥ 4` — one byte less than the thread id
needs, because the NUL itself is never subtracted, so a body with exactly
3 bytes after the NUL still succeeds (the modelled wire reader zero-extends).
The spec's concrete greeting packet parses to protocol 10, version "5.7.28"
(bytes), thread id 11, message type `Other`. -/
theorem greeting_amended :
    (∀ (s : MysqlLog) (payload : List Nat),
      (payload.length = 0 →
        (s.greeting payload).2 = .error .MysqlLogParseFailed) ∧
      (((payload.drop 1).findIdx? (fun x => x == 0)).getD 0 = 0 →
        (s.greeting payload).2 = .error .MysqlLogParseFailed) ∧
      (∀ pos : Nat, (payload.drop 1).findIdx? (fun x => x == 0) = some pos → pos ≠ 0 →
        (payload.length - 1 - pos < 4 →
          (s.greeting payload).2 = .error .MysqlLogParseFailed) ∧
        (4 ≤ payload.length - 1 - pos →
          s.greeting payload =
            ({ s with
                info := { s.info with
                  protocol_version := payload.getD 0 0,
                  server_version := (payload.drop 1).take pos,
                  server_thread_id := read_u32_le (payload.drop (pos + 2)) },
                l7_proto := .Mysql },
              .ok ())))) ∧
    (MysqlLog.default.parse [12, 0, 0, 0, 10, 53, 46, 55, 46, 50, 56, 0, 11, 0, 0, 0]
        IpProtocol.Tcp PacketDirection.ServerToClient).2 =
      .ok { proto := .Mysql, msg_type := .Other, status := .Ok, code := 0,
            rrt := 0, version := 0 } ∧
    (MysqlLog.default.parse [12, 0, 0, 0, 10, 53, 46, 55, 46, 50, 56, 0, 11, 0, 0, 0]
        IpProtocol.Tcp PacketDirection.ServerToClient).1.info.protocol_version = 10 ∧
    (MysqlLog.default.parse [12, 0, 0, 0, 10, 53, 46, 55, 46, 50, 56, 0, 11, 0, 0, 0]
        IpProtocol.Tcp PacketDirection.ServerToClient).1.info.server_version =
      [53, 46, 55, 46, 50, 56] ∧
    (MysqlLog.default.parse [12, 0, 0, 0, 10, 53, 46, 55, 46, 50, 56, 0, 11, 0, 0, 0]
        IpProtocol.Tcp PacketDirection.ServerToClient).1.info.server_thread_id = 11 ∧
    (MysqlLog.default.parse [12, 0, 0, 0, 10, 53, 46, 55, 46, 50, 56, 0, 11, 0, 0, 0]
        IpProtocol.Tcp PacketDirection.ServerToClient).1.msg_type = .Other ∧
    (MysqlLog.default.parse [12, 0, 0, 0, 10, 53, 46, 55, 46, 50, 56, 0, 11, 0, 0, 0]
        IpProtocol.Tcp PacketDirection.ServerToClient).1.l7_proto = .Mysql := by
  have hparse :
      MysqlLog.default.parse [12, 0, 0, 0, 10, 53, 46, 55, 46, 50, 56, 0, 11, 0, 0, 0]
          IpProtocol.Tcp PacketDirection.ServerToClient =
        (({ info :=
              { protocol_version := 10
                server_version := [53, 46, 55, 46, 50, 56]
                server_thread_id := 11
                command := 0
                context := []
                response_code := 0
                error_code := 0
                affected_rows := 0
                error_message := [] }
            l7_proto := .Mysql
            msg_type := .Other
            status := .Ok } : MysqlLog),
          .ok { proto := .Mysql, msg_type := .Other, status := .Ok, code := 0, rrt := 0,
                version := 0 }) := by
    unfold MysqlLog.parse
    rw [decode_greeting_frame]
    decide
  refine ⟨fun s payload => ⟨?_, ?_, ?_⟩, by rw [hparse], by rw [hparse], by rw [hparse],
    by rw [hparse], by rw [hparse], by rw [hparse]⟩
  · intro h
    simp [MysqlLog.greeting, PROTOCOL_VERSION_LEN, h]
  · intro h
    by_cases hlen : payload.length < 1
    · simp [MysqlLog.greeting, PROTOCOL_VERSION_LEN, hlen]
    · simp only [MysqlLog.greeting, PROTOCOL_VERSION_LEN, SERVER_VERSION_OFFSET,
        SERVER_VERSION_EOF, hlen, if_false, ite_false]
      rw [if_pos h]
  · intro pos hfind hpos
    have hlen : ¬ payload.length < 1 := by
      intro hl
      have hnil : payload = [] := List.eq_nil_of_length_eq_zero (by omega)
      rw [hnil] at hfind
      simp at hfind
    constructor
    · intro hshort
      simp only [MysqlLog.greeting, PROTOCOL_VERSION_LEN, PROTOCOL_VERSION_OFFSET,
        SERVER_VERSION_OFFSET, SERVER_VERSION_EOF, THREAD_ID_LEN, THREAD_ID_OFFSET_B, hlen,
        if_false, ite_false, hfind, Option.getD_some, hpos]
      rw [if_pos hshort]
    · intro hlong
      simp only [MysqlLog.greeting, PROTOCOL_VERSION_LEN, PROTOCOL_VERSION_OFFSET,
        SERVER_VERSION_OFFSET, SERVER_VERSION_EOF, THREAD_ID_LEN, THREAD_ID_OFFSET_B, hlen,
        if_false, ite_false, hfind, Option.getD_some, hpos]
      rw [if_neg (show ¬ payload.length - 1 - pos < 4 by omega)]
      rw [show 1 + pos + 1 = pos + 2 by omega]

/-- Witness for C3 (amended) on the spec's greeting body. -/
theorem greeting_amended_witness :
    (([10, 53, 46, 55, 46, 50, 56, 0, 11, 0, 0, 0] : List Nat).drop 1).findIdx?
        (fun x => x == 0) = some 6 ∧
      MysqlLog.default.greeting [10, 53, 46, 55, 46, 50, 56, 0, 11, 0, 0, 0] =
        ({ MysqlLog.default with
            info := { MysqlLog.default.info with
              protocol_version := 10,
              server_version := [53, 46, 55, 46, 50, 56],
              server_thread_id := 11 },
            l7_proto := .Mysql },
          .ok ()) := by
  constructor
  · decide
  · have h := ((greeting_amended.1 MysqlLog.default
      [10, 53, 46, 55, 46, 50, 56, 0, 11, 0, 0, 0]).2.2 6 (by decide) (by decide)).2
      (by decide)
    rw [h]
    decide

/-- Claim C4 counterexample: for the ERR body `ff 15 04` (length 3) the
claim demands `error_code = 0x0415 = 1045` (the 2-byte LE integer at
offset 1 exists) and hence `ServerError`; the code reads the error code only
when strictly more than 3 bytes are present, so it stays 0 and the status
becomes `Ok`. -/
theorem response_len3_err_code_not_read :
    (MysqlLog.default.response [0xff, 0x15, 0x04]).1.info.error_code = 0 ∧
      (MysqlLog.default.response [0xff, 0x15, 0x04]).1.status = .Ok := by
  decide

/-- Claim C4 amended: on an ERR body of at least 3 bytes, `response` stores
response_code 0xff; it reads error_code as the 2-byte LE integer at offset 1
only when the body has strictly more than 3 bytes (otherwise the previous
value — 0 after a reset — is kept); the status follows the status rule
applied to that stored error_code; and the message starts at offset 3 unless
more than 6 bytes remain after the error code and byte 3 is the marker 0x23,
in which case it starts at offset 9.  Bodies of length 1 and 2 are excluded:
they panic (claim C1). -/
theorem response_err_amended (s : MysqlLog) (payload : List Nat) (ec : Nat)
    (herr : payload.getD 0 0 = 0xff) (hlen : 3 ≤ payload.length)
    (hec : ec = if 3 < payload.length then read_u16_le (payload.drop 1)
      else s.info.error_code) :
    s.response payload =
      ({ s with
          info :=
            { s.info with
              response_code := 0xff
              error_code := ec
              error_message :=
                if 9 < payload.length ∧ payload.getD 3 0 = 0x23 then payload.drop 9
                else payload.drop 3 }
          status :=
            if ec ≠ 0 then
              if 2000 ≤ ec ∧ ec ≤ 2999 then .ClientError else .ServerError
            else .Ok },
        .ok ()) := by
  subst hec
  have hne1 : ¬ payload.length < 1 := by omega
  by_cases h4 : 3 < payload.length
  · have hec2 : 2 < payload.length - 1 := by omega
    by_cases hm : 9 < payload.length ∧ payload.getD 3 0 = 0x23
    · simp only [MysqlLog.response, MysqlLog.set_status, RESPONSE_CODE_LEN,
        RESPONSE_CODE_OFFSET, ERROR_CODE_LEN, ERROR_CODE_OFFSET, SQL_STATE_LEN,
        SQL_STATE_OFFSET, SQL_STATE_MARKER, MYSQL_RESPONSE_CODE_ERR]
      rw [if_neg hne1, if_pos herr]
      simp only [if_pos hec2]
      rw [if_pos (show 6 < payload.length - 1 - 2 ∧ payload.getD 3 0 = 0x23 from
        ⟨by omega, hm.2⟩)]
      rw [if_neg (show ¬ payload.length < 3 + 6 by omega)]
      simp only [herr, if_pos h4, if_pos hm]
      split <;> first | rfl | (split <;> rfl)
    · simp only [MysqlLog.response, MysqlLog.set_status, RESPONSE_CODE_LEN,
        RESPONSE_CODE_OFFSET, ERROR_CODE_LEN, ERROR_CODE_OFFSET, SQL_STATE_LEN,
        SQL_STATE_OFFSET, SQL_STATE_MARKER, MYSQL_RESPONSE_CODE_ERR]
      rw [if_neg hne1, if_pos herr]
      simp only [if_pos hec2]
      rw [if_neg (show ¬ (6 < payload.length - 1 - 2 ∧ payload.getD 3 0 = 0x23) from
        fun hx => hm ⟨by omega, hx.2⟩)]
      rw [if_neg (show ¬ payload.length < 3 by omega)]
      simp only [herr, if_pos h4, if_neg hm]
      split <;> first | rfl | (split <;> rfl)
  · have hec2 : ¬ 2 < payload.length - 1 := by omega
    have hm : ¬ (9 < payload.length ∧ payload.getD 3 0 = 0x23) := by
      intro hx
      omega
    simp only [MysqlLog.response, MysqlLog.set_status, RESPONSE_CODE_LEN,
      RESPONSE_CODE_OFFSET, ERROR_CODE_LEN, ERROR_CODE_OFFSET, SQL_STATE_LEN,
      SQL_STATE_OFFSET, SQL_STATE_MARKER, MYSQL_RESPONSE_CODE_ERR]
    rw [if_neg hne1, if_pos herr]
    simp only [if_neg hec2]
    rw [if_neg (show ¬ (6 < payload.length - 1 ∧ payload.getD 3 0 = 0x23) by
      intro hx; omega)]
    rw [if_neg (show ¬ payload.length < 3 by omega)]
    simp only [herr, if_neg h4, if_neg hm]
    split <;> first | rfl | (split <;> rfl)

/-- Witness for C4 (amended) on the spec's concrete error body. -/
theorem response_err_amended_witness :
    ([0xff, 0x15, 0x04, 0x23, 0x48, 0x59, 0x30, 0x30, 0x30,
        0x55, 0x6e, 0x6b, 0x6e, 0x6f, 0x77, 0x6e] : List Nat).getD 0 0 = 0xff ∧
      (MysqlLog.default.response [0xff, 0x15, 0x04, 0x23, 0x48, 0x59, 0x30, 0x30, 0x30,
          0x55, 0x6e, 0x6b, 0x6e, 0x6f, 0x77, 0x6e]).1.info.response_code = 0xff ∧
      (MysqlLog.default.response [0xff, 0x15, 0x04, 0x23, 0x48, 0x59, 0x30, 0x30, 0x30,
          0x55, 0x6e, 0x6b, 0x6e, 0x6f, 0x77, 0x6e]).1.info.error_code = 1045 ∧
      (MysqlLog.default.response [0xff, 0x15, 0x04, 0x23, 0x48, 0x59, 0x30, 0x30, 0x30,
          0x55, 0x6e, 0x6b, 0x6e, 0x6f, 0x77, 0x6e]).1.info.error_message =
        [0x55, 0x6e, 0x6b, 0x6e, 0x6f, 0x77, 0x6e] ∧
      (MysqlLog.default.response [0xff, 0x15, 0x04, 0x23, 0x48, 0x59, 0x30, 0x30, 0x30,
          0x55, 0x6e, 0x6b, 0x6e, 0x6f, 0x77, 0x6e]).1.status = .ServerError := by
  have h := response_err_amended MysqlLog.default
    [0xff, 0x15, 0x04, 0x23, 0x48, 0x59, 0x30, 0x30, 0x30,
      0x55, 0x6e, 0x6b, 0x6e, 0x6f, 0x77, 0x6e]
    1045 (by decide) (by decide) (by decide)
  rw [h]
  decide

/-- Claim C5: `mysql_check_protocol` accepts a payload if and only if the
decoded frame header has sequence number 0, `offset + body_length` fits in
the payload, and the body byte at the offset is either QUERY (0x03) with the
remainder decoding to a fully ASCII string, or lies in 0x08..0x14 with the
up-to-8-byte window after it matching the version regex; every other case —
non-TCP packets, missing payloads and undecodable headers included — is
rejected. -/
theorem mysql_check_protocol_accepts_iff (bitmap : Nat) (packet : MetaPacket) :
    (mysql_check_protocol bitmap packet).2 = true ↔
      mysql_check_protocol_accepts_spec packet := by
  obtain ⟨proto, pl⟩ := packet
  by_cases hp : proto = IpProtocol.Tcp
  · subst hp
    cases pl with
    | none =>
      simp [mysql_check_protocol, mysql_check_protocol_accepts_spec]
    | some payload =>
      by_cases h0 : (MysqlHeader.decode MysqlHeader.default payload).2 < 0
      · simp [mysql_check_protocol, mysql_check_protocol_accepts_spec, h0,
          show ¬ (0 : Int) ≤ (MysqlHeader.decode MysqlHeader.default payload).2 by omega]
      · have h0' : (0 : Int) ≤ (MysqlHeader.decode MysqlHeader.default payload).2 := by omega
        by_cases hn : (MysqlHeader.decode MysqlHeader.default payload).1.number = 0
        · by_cases hfit : (MysqlHeader.decode MysqlHeader.default payload).2.toNat +
              (MysqlHeader.decode MysqlHeader.default payload).1.length ≤ payload.length
          · have hnlt : ¬ payload.length <
                (MysqlHeader.decode MysqlHeader.default payload).2.toNat +
                  (MysqlHeader.decode MysqlHeader.default payload).1.length := by omega
            by_cases hq :
                (payload[(MysqlHeader.decode MysqlHeader.default payload).2.toNat]?).getD 0 = 3
            · simp [mysql_check_protocol, mysql_check_protocol_accepts_spec,
                MYSQL_COMMAND_QUERY, h0, h0', hn, hfit, hnlt, hq]
            · by_cases hr :
                  8 ≤ (payload[(MysqlHeader.decode MysqlHeader.default payload).2.toNat]?).getD 0
                    ∧ (payload[(MysqlHeader.decode
                        MysqlHeader.default payload).2.toNat]?).getD 0 ≤ 20
              · simp [mysql_check_protocol, mysql_check_protocol_accepts_spec,
                  MYSQL_COMMAND_QUERY, h0, h0', hn, hfit, hnlt, hq, hr.1, hr.2]
              · simp [mysql_check_protocol, mysql_check_protocol_accepts_spec,
                  MYSQL_COMMAND_QUERY, h0, h0', hn, hfit, hnlt, hq, hr]
                tauto
          · have hlt : payload.length <
                (MysqlHeader.decode MysqlHeader.default payload).2.toNat +
                  (MysqlHeader.decode MysqlHeader.default payload).1.length := by omega
            simp [mysql_check_protocol, mysql_check_protocol_accepts_spec, h0, h0', hn, hlt]
        · simp [mysql_check_protocol, mysql_check_protocol_accepts_spec, h0, h0', hn]
  · simp [mysql_check_protocol, mysql_check_protocol_accepts_spec, hp]

end FlowGen
